import Mathlib

/-!
Shallow embedding of `src/assets/pyscript/potify.py`: a pot (frustum) volume
routine built from two virtual cones. The three functions `compute_angles`,
`v_cone` and `v_pot` are translated line by line from the Python source, with
Python floats modelled as real numbers (`ℝ`), `np.arctan` as `Real.arctan`,
`np.tan` as `Real.tan` and `np.pi` as `Real.pi`.
-/

namespace Potify

open Real

/-- `RAD_180 = np.pi / 2` (source line 38; note the value is π/2, not π). -/
noncomputable def RAD_180 : ℝ := Real.pi / 2

/-- `compute_angles(diameter_top, diameter_base, height)` returning
`(alpha, beta)` in radians (source lines 41-72):
`width = (diameter_top - diameter_base) / 2`, `tan_beta = height / width`,
`beta = arctan(tan_beta)`, `alpha = RAD_180 - 2 * beta`. -/
noncomputable def compute_angles (diameter_top diameter_base height : ℝ) : ℝ × ℝ :=
  let width := (diameter_top - diameter_base) / 2
  let tan_beta := height / width
  let beta := Real.arctan tan_beta
  let alpha := RAD_180 - 2 * beta
  (alpha, beta)

/-- `v_cone(ray, height) = (np.pi * ray**2 * height) / 3` (source lines 75-79). -/
noncomputable def v_cone (ray height : ℝ) : ℝ :=
  (Real.pi * ray ^ 2 * height) / 3

/-- `v_pot(diameter_base, diameter_top, height)` (source lines 82-118):
`alpha, _ = compute_angles(...)`; `h_small_cone = (diameter_base / 2) / tan(alpha)`;
`h_big_cone = height + h_small_cone`; the result is
`v_cone(diameter_top/2, h_big_cone) - v_cone(diameter_base/2, h_small_cone)`. -/
noncomputable def v_pot (diameter_base diameter_top height : ℝ) : ℝ :=
  let alpha := (compute_angles diameter_top diameter_base height).1
  let h_small_cone := (diameter_base / 2) / Real.tan alpha
  let h_big_cone := height + h_small_cone
  let v_small_cone := v_cone (diameter_base / 2) h_small_cone
  let v_big_cone := v_cone (diameter_top / 2) h_big_cone
  v_big_cone - v_small_cone

/-! Unfolding lemmas (definitional restatements of the three functions). -/

theorem compute_angles_fst (diameter_top diameter_base height : ℝ) :
    (compute_angles diameter_top diameter_base height).1 =
      Real.pi / 2 - 2 * Real.arctan (height / ((diameter_top - diameter_base) / 2)) := rfl

theorem compute_angles_snd (diameter_top diameter_base height : ℝ) :
    (compute_angles diameter_top diameter_base height).2 =
      Real.arctan (height / ((diameter_top - diameter_base) / 2)) := rfl

theorem v_cone_eq (ray height : ℝ) :
    v_cone ray height = Real.pi * ray ^ 2 * height / 3 := rfl

theorem v_pot_eq (diameter_base diameter_top height : ℝ) :
    v_pot diameter_base diameter_top height =
      v_cone (diameter_top / 2)
        (height + (diameter_base / 2) /
          Real.tan ((compute_angles diameter_top diameter_base height).1)) -
      v_cone (diameter_base / 2)
        ((diameter_base / 2) /
          Real.tan ((compute_angles diameter_top diameter_base height).1)) := rfl

/-- Tangent of the `alpha` produced by `compute_angles`, as a rational function
of the tangent of `beta`. Both sides take Mathlib's junk value at the
degenerate points, so no hypothesis is needed. -/
theorem tan_alpha_formula (t : ℝ) :
    Real.tan (Real.pi / 2 - 2 * Real.arctan t) = (1 - t ^ 2) / (2 * t) := by
  rw [Real.tan_pi_div_two_sub, Real.tan_two_mul, Real.tan_arctan, inv_div]

/-! Concrete evaluations of `v_pot` used below. -/

/-- At `diameter_base = 10`, `diameter_top = 12`, `height = 2` the routine
returns `-(4π/9)`: here `tan beta = 2`, so `tan alpha = -3/4`, the small-cone
height is `-20/3` and the big-cone height is `-14/3`. -/
theorem v_pot_eval_10_12_2 : v_pot 10 12 2 = -(4 * Real.pi / 9) := by
  rw [v_pot_eq, compute_angles_fst, tan_alpha_formula, v_cone_eq, v_cone_eq]
  norm_num
  ring

/-- At `diameter_base = 10`, `diameter_top = 11`, `height = 2` the routine
returns `31π/2`: here `tan beta = 4`, so `tan alpha = -15/8`, the small-cone
height is `-8/3` and the big-cone height is `-2/3`. -/
theorem v_pot_eval_10_11_2 : v_pot 10 11 2 = 31 * Real.pi / 2 := by
  rw [v_pot_eq, compute_angles_fst, tan_alpha_formula, v_cone_eq, v_cone_eq]
  norm_num
  ring

/-- C1: for every input with `diameter_top ≠ diameter_base`, `v_pot` follows
exactly the stated steps: it obtains `alpha` from `compute_angles`, sets
`h_small_cone = (diameter_base / 2) / tan alpha`,
`h_big_cone = height + h_small_cone` (so `h_big_cone - h_small_cone = height`
holds exactly), and returns
`v_cone(diameter_top/2, h_big_cone) - v_cone(diameter_base/2, h_small_cone)`. -/
theorem v_pot_follows_cone_subtraction_steps
    (diameter_base diameter_top height : ℝ) (hne : diameter_top ≠ diameter_base) :
    ∃ alpha h_small_cone h_big_cone : ℝ,
      alpha = (compute_angles diameter_top diameter_base height).1 ∧
      h_small_cone = (diameter_base / 2) / Real.tan alpha ∧
      h_big_cone = height + h_small_cone ∧
      h_big_cone - h_small_cone = height ∧
      v_pot diameter_base diameter_top height =
        v_cone (diameter_top / 2) h_big_cone - v_cone (diameter_base / 2) h_small_cone :=
  ⟨_, _, _, rfl, rfl, rfl, by ring, rfl⟩

/-- Witness for C1 at `diameter_base = 11`, `diameter_top = 19`, `height = 18`. -/
theorem v_pot_follows_cone_subtraction_steps_witness :
    (19 : ℝ) ≠ 11 ∧
    ∃ alpha h_small_cone h_big_cone : ℝ,
      alpha = (compute_angles 19 11 18).1 ∧
      h_small_cone = (11 / 2) / Real.tan alpha ∧
      h_big_cone = 18 + h_small_cone ∧
      h_big_cone - h_small_cone = 18 ∧
      v_pot 11 19 18 = v_cone (19 / 2) h_big_cone - v_cone (11 / 2) h_small_cone :=
  ⟨by norm_num, v_pot_follows_cone_subtraction_steps 11 19 18 (by norm_num)⟩

/-- C4: for every input with `diameter_top ≠ diameter_base`, `compute_angles`
returns `beta = arctan(height / half_width)` with
`half_width = (diameter_top - diameter_base) / 2` and
`alpha = π/2 - 2·beta`; the constant used in the apex-angle formula is `π/2`. -/
theorem compute_angles_formula (diameter_top diameter_base height : ℝ)
    (hne : diameter_top ≠ diameter_base) :
    (compute_angles diameter_top diameter_base height).2 =
      Real.arctan (height / ((diameter_top - diameter_base) / 2)) ∧
    (compute_angles diameter_top diameter_base height).1 =
      Real.pi / 2 - 2 * (compute_angles diameter_top diameter_base height).2 ∧
    RAD_180 = Real.pi / 2 :=
  ⟨rfl, rfl, rfl⟩

/-- Witness for C4 at `diameter_top = 19`, `diameter_base = 11`, `height = 18`. -/
theorem compute_angles_formula_witness :
    (19 : ℝ) ≠ 11 ∧
    ((compute_angles 19 11 18).2 = Real.arctan (18 / ((19 - 11) / 2)) ∧
     (compute_angles 19 11 18).1 = Real.pi / 2 - 2 * (compute_angles 19 11 18).2 ∧
     RAD_180 = Real.pi / 2) :=
  ⟨by norm_num, compute_angles_formula 19 11 18 (by norm_num)⟩

/-- C8: `v_cone` returns `(π · ray² · height) / 3` for every input, and the
result is non-negative whenever both arguments are non-negative. -/
theorem v_cone_formula_and_nonneg (ray height : ℝ) :
    v_cone ray height = Real.pi * ray ^ 2 * height / 3 ∧
      (0 ≤ ray → 0 ≤ height → 0 ≤ v_cone ray height) := by
  refine ⟨rfl, fun hr hh => ?_⟩
  rw [v_cone_eq]
  exact div_nonneg (mul_nonneg (mul_nonneg Real.pi_pos.le (pow_nonneg hr 2)) hh) (by norm_num)

/-- Witness for C8 at `ray = 2`, `height = 3`. -/
theorem v_cone_formula_and_nonneg_witness :
    v_cone 2 3 = Real.pi * 2 ^ 2 * 3 / 3 ∧ 0 ≤ v_cone 2 3 :=
  ⟨(v_cone_formula_and_nonneg 2 3).1,
   (v_cone_formula_and_nonneg 2 3).2 (by norm_num) (by norm_num)⟩

/-- C10: `v_cone` is odd in its height argument: negating the height negates
the volume, the volume is negative for nonzero radius and negative height, and
it is zero at height zero. -/
theorem v_cone_odd_in_height (ray height : ℝ) :
    v_cone ray (-height) = -v_cone ray height ∧
    (ray ≠ 0 → height < 0 → v_cone ray height < 0) ∧
    v_cone ray 0 = 0 := by
  refine ⟨by rw [v_cone_eq, v_cone_eq]; ring, fun hr hh => ?_, by rw [v_cone_eq]; ring⟩
  rw [v_cone_eq]
  have h2 : 0 < ray ^ 2 := pow_two_pos_of_ne_zero hr
  have h3 := mul_neg_of_pos_of_neg (mul_pos Real.pi_pos h2) hh
  linarith

/-- Witness for C10 at `ray = 1`, `height = -1`. -/
theorem v_cone_odd_in_height_witness :
    (1 : ℝ) ≠ 0 ∧ (-1 : ℝ) < 0 ∧ v_cone 1 (-1) < 0 :=
  ⟨by norm_num, by norm_num,
   (v_cone_odd_in_height 1 (-1)).2.1 (by norm_num) (by norm_num)⟩

/-- C9: scale invariance. For every `k > 0` and `diameter_top ≠ diameter_base`,
scaling all three measurements by `k` leaves `compute_angles` unchanged and
multiplies `v_pot` by `k³`. -/
theorem v_pot_scale_invariance (diameter_base diameter_top height k : ℝ)
    (hk : 0 < k) (hne : diameter_top ≠ diameter_base) :
    compute_angles (k * diameter_top) (k * diameter_base) (k * height) =
      compute_angles diameter_top diameter_base height ∧
    v_pot (k * diameter_base) (k * diameter_top) (k * height) =
      k ^ 3 * v_pot diameter_base diameter_top height := by
  have hk0 : k ≠ 0 := hk.ne'
  have harg : (k * height) / ((k * diameter_top - k * diameter_base) / 2) =
      height / ((diameter_top - diameter_base) / 2) := by
    rw [show (k * diameter_top - k * diameter_base) / 2 =
        k * ((diameter_top - diameter_base) / 2) by ring, mul_div_mul_left _ _ hk0]
  have hangles : compute_angles (k * diameter_top) (k * diameter_base) (k * height) =
      compute_angles diameter_top diameter_base height := by
    have h1 : (compute_angles (k * diameter_top) (k * diameter_base) (k * height)).1 =
        (compute_angles diameter_top diameter_base height).1 := by
      rw [compute_angles_fst, compute_angles_fst, harg]
    have h2 : (compute_angles (k * diameter_top) (k * diameter_base) (k * height)).2 =
        (compute_angles diameter_top diameter_base height).2 := by
      rw [compute_angles_snd, compute_angles_snd, harg]
    exact Prod.ext h1 h2
  refine ⟨hangles, ?_⟩
  rw [v_pot_eq, v_pot_eq, hangles, v_cone_eq, v_cone_eq, v_cone_eq, v_cone_eq]
  rw [show k * diameter_base / 2 /
        Real.tan ((compute_angles diameter_top diameter_base height).1) =
      k * (diameter_base / 2 /
        Real.tan ((compute_angles diameter_top diameter_base height).1)) by
    rw [mul_div_assoc, mul_div_assoc]]
  ring

/-- Witness for C9 at `k = 2`, `diameter_base = 11`, `diameter_top = 19`,
`height = 18`. -/
theorem v_pot_scale_invariance_witness :
    (0 : ℝ) < 2 ∧ (19 : ℝ) ≠ 11 ∧
    (compute_angles (2 * 19) (2 * 11) (2 * 18) = compute_angles 19 11 18 ∧
     v_pot (2 * 11) (2 * 19) (2 * 18) = 2 ^ 3 * v_pot 11 19 18) :=
  ⟨by norm_num, by norm_num, v_pot_scale_invariance 11 19 18 2 (by norm_num) (by norm_num)⟩

/-- C2: the input `diameter_base = 10`, `diameter_top = 12`, `height = 2`
satisfies `diameter_top > diameter_base > 0` and `height > 0`, yet `v_pot`
returns `-(4π/9)`, which is strictly negative — not a strictly positive
value. -/
theorem v_pot_negative_on_valid_input :
    (0 : ℝ) < 10 ∧ (10 : ℝ) < 12 ∧ (0 : ℝ) < 2 ∧
    v_pot 10 12 2 = -(4 * Real.pi / 9) ∧ v_pot 10 12 2 < 0 := by
  refine ⟨by norm_num, by norm_num, by norm_num, v_pot_eval_10_12_2, ?_⟩
  rw [v_pot_eval_10_12_2]
  have h := Real.pi_pos
  linarith

/-- C5: at `diameter_top = 19`, `diameter_base = 11`, `height = 18` the
returned `beta = arctan(9/2)` does lie in `(0, π/2)`, but the returned
`alpha = π/2 - 2·arctan(9/2)` is strictly negative, hence outside `(0, π/2)`. -/
theorem compute_angles_alpha_negative_at_19_11_18 :
    (compute_angles 19 11 18).1 < 0 ∧
    0 < (compute_angles 19 11 18).2 ∧
    (compute_angles 19 11 18).2 < Real.pi / 2 := by
  rw [compute_angles_fst, compute_angles_snd]
  rw [show (18 : ℝ) / ((19 - 11) / 2) = 9 / 2 by norm_num]
  have h1 : Real.arctan 1 < Real.arctan (9 / 2) := Real.arctan_strictMono (by norm_num)
  rw [Real.arctan_one] at h1
  have h2 : Real.arctan 0 < Real.arctan (9 / 2) := Real.arctan_strictMono (by norm_num)
  rw [Real.arctan_zero] at h2
  have h3 := Real.arctan_lt_pi_div_two (9 / 2)
  have h4 := Real.pi_pos
  exact ⟨by linarith, h2, h3⟩

/-- C6: with `diameter_base = 10` and `height = 2` fixed, raising the top
diameter from `11` to `12` strictly decreases the returned volume
(from `31π/2` to `-(4π/9)`), so `v_pot` is not strictly increasing in
`diameter_top`. -/
theorem v_pot_not_monotone_in_diameter_top :
    (10 : ℝ) < 11 ∧ (11 : ℝ) < 12 ∧ v_pot 10 12 2 < v_pot 10 11 2 := by
  refine ⟨by norm_num, by norm_num, ?_⟩
  rw [v_pot_eval_10_12_2, v_pot_eval_10_11_2]
  have h := Real.pi_pos
  linarith

/-- The small-cone height `r / tan(alpha)`, with `tan(alpha)` already in its
rational form `(1 - (h/w)²) / (2·(h/w))`, collapses to
`2·r·h·w / (w² - h²)` whenever `w ≠ 0` and `w² ≠ h²`. -/
theorem small_cone_height_closed (r h w : ℝ) (hw : w ≠ 0) (hq : w ^ 2 - h ^ 2 ≠ 0) :
    r / ((1 - (h / w) ^ 2) / (2 * (h / w))) = 2 * r * h * w / (w ^ 2 - h ^ 2) := by
  have h1 : (1 : ℝ) - (h / w) ^ 2 ≠ 0 := by
    have hrw : (1 : ℝ) - (h / w) ^ 2 = (w ^ 2 - h ^ 2) / w ^ 2 := by
      field_simp
    rw [hrw]
    exact div_ne_zero hq (pow_ne_zero 2 hw)
  rw [div_div_eq_mul_div, div_eq_div_iff h1 hq]
  field_simp
  ring

/-- Closed form of `v_pot 10 dt 2` for `dt` in `(10, 14)`, i.e. for half-width
`w = (dt - 10)/2` in `(0, 2)`: the trigonometric steps collapse to a rational
function of `dt`. -/
theorem v_pot_closed_form_near_10 (dt : ℝ) (hlo : 10 < dt) (hhi : dt < 14) :
    v_pot 10 dt 2 = Real.pi / 3 * ((dt / 2) ^ 2 * 2 +
      ((dt / 2) ^ 2 - 25) * (20 * ((dt - 10) / 2) / (((dt - 10) / 2) ^ 2 - 4))) := by
  have hw : 0 < (dt - 10) / 2 := by linarith
  have hw2 : (dt - 10) / 2 < 2 := by linarith
  have hw0 : (dt - 10) / 2 ≠ 0 := hw.ne'
  have hw4 : ((dt - 10) / 2) ^ 2 - 2 ^ 2 ≠ 0 := by nlinarith
  rw [v_pot_eq, compute_angles_fst, tan_alpha_formula, v_cone_eq, v_cone_eq]
  rw [small_cone_height_closed (10 / 2 : ℝ) 2 ((dt - 10) / 2) hw0 hw4]
  ring

/-- C3: with `diameter_base = 10` and `height = 2` fixed, as `diameter_top`
approaches `10` from above, `v_pot` tends to the cone volume
`π·(10/2)²·2/3`, and does not tend to the cylinder volume `π·(10/2)²·2`. -/
theorem v_pot_limit_at_equal_diameters :
    Filter.Tendsto (fun dt : ℝ => v_pot 10 dt 2) (nhdsWithin 10 (Set.Ioi 10))
      (nhds (Real.pi * (10 / 2) ^ 2 * 2 / 3)) ∧
    ¬ Filter.Tendsto (fun dt : ℝ => v_pot 10 dt 2) (nhdsWithin 10 (Set.Ioi 10))
      (nhds (Real.pi * (10 / 2) ^ 2 * 2)) := by
  have key : Filter.Tendsto (fun dt : ℝ => v_pot 10 dt 2) (nhdsWithin 10 (Set.Ioi 10))
      (nhds (Real.pi * (10 / 2) ^ 2 * 2 / 3)) := by
    set g : ℝ → ℝ := fun dt => Real.pi / 3 * ((dt / 2) ^ 2 * 2 +
      ((dt / 2) ^ 2 - 25) * (20 * ((dt - 10) / 2) / (((dt - 10) / 2) ^ 2 - 4))) with hg
    have hcont : ContinuousAt g 10 := by
      apply ContinuousAt.mul continuousAt_const
      apply ContinuousAt.add
      · fun_prop
      · apply ContinuousAt.mul
        · fun_prop
        · apply ContinuousAt.div
          · fun_prop
          · fun_prop
          · norm_num
    have hg10 : g 10 = Real.pi * (10 / 2) ^ 2 * 2 / 3 := by
      rw [hg]; norm_num; ring
    have h1 : Filter.Tendsto g (nhdsWithin 10 (Set.Ioi 10))
        (nhds (Real.pi * (10 / 2) ^ 2 * 2 / 3)) := by
      rw [← hg10]
      exact hcont.tendsto.mono_left nhdsWithin_le_nhds
    have hmem : Set.Ioo (10 : ℝ) 14 ∈ nhdsWithin (10 : ℝ) (Set.Ioi 10) :=
      Ioo_mem_nhdsWithin_Ioi ⟨le_refl _, by norm_num⟩
    have heq : g =ᶠ[nhdsWithin (10 : ℝ) (Set.Ioi 10)] fun dt : ℝ => v_pot 10 dt 2 :=
      Filter.eventuallyEq_of_mem hmem fun dt hdt =>
        (v_pot_closed_form_near_10 dt hdt.1 hdt.2).symm
    exact Filter.Tendsto.congr' heq h1
  refine ⟨key, fun hcyl => ?_⟩
  have huniq := tendsto_nhds_unique key hcyl
  have hpi := Real.pi_pos
  norm_num at huniq
  linarith

end Potify
